import Mathlib

/-!
Verification of the VocalVerse backend (src/backend/main.py).

The development shallowly embeds the pipeline-relevant parts of the backend:
the subtitle timestamp formatter and SRT serializer, the remux audio-duration
policy of the video-translate endpoint, the summarize endpoint, and the
resource-lifecycle / error-propagation behaviour of the upload, subtitle and
video-translate endpoints.  Times and durations are modelled as rationals;
machine integer operations of Python (int truncation, floor division and
modulo) are modelled explicitly.
-/

set_option autoImplicit false
set_option maxRecDepth 8000

namespace VocalVerse

/-- Python `int()` applied to a (real-valued) quantity truncates toward zero.
On rationals this is `num.div den` with truncating integer division. -/
def pyInt (q : ℚ) : ℤ :=
  Int.tdiv q.num (q.den : ℤ)

/-- Zero-pad the decimal digits of a natural number to the given width,
as Python format specifiers `02` / `03` do for non-negative values. -/
def padNat (width : Nat) (n : Nat) : String :=
  let s := toString n
  if s.length < width then String.mk (List.replicate (width - s.length) '0') ++ s
  else s

/-- Python `f"{n:0Nd}"` on an integer: the sign comes first, the digit part
is zero-padded to the remaining width. -/
def pyPadInt (width : Nat) (n : ℤ) : String :=
  if n < 0 then "-" ++ padNat (width - 1) n.natAbs
  else padNat width n.toNat

/-- Embeds `format_timestamp` (src/backend/main.py lines 73-79):
`millis = int(seconds * 1000)` followed by floor divisions and modulo,
rendered as `HH:MM:SS,mmm`.  Python `//` and `%` on integers are floor
division and modulo, i.e. `Int.ediv` / `Int.emod` for positive divisors. -/
def format_timestamp (seconds : ℚ) : String :=
  let millis : ℤ := pyInt (seconds * 1000)
  let hours : ℤ := Int.ediv millis 3600000
  let minutes : ℤ := Int.ediv (Int.emod millis 3600000) 60000
  let secs : ℤ := Int.ediv (Int.emod millis 60000) 1000
  let milliseconds : ℤ := Int.emod millis 1000
  pyPadInt 2 hours ++ ":" ++ pyPadInt 2 minutes ++ ":" ++ pyPadInt 2 secs ++ ","
    ++ pyPadInt 3 milliseconds

/-- A Whisper transcription segment as consumed by `generate_srt`: the dict
keys `start`, `end` and `text`.  The `end` key is called `stop` here because
`end` is a keyword. -/
structure Segment where
  start : ℚ
  stop : ℚ
  text : String
deriving DecidableEq

/-- Python `str.strip()`: drop whitespace from both ends of the string. -/
def pyStrip (s : String) : String :=
  String.mk (((s.data.dropWhile Char.isWhitespace).reverse.dropWhile Char.isWhitespace).reverse)

/-- The text written for one enumerated segment inside the loop of
`generate_srt` (line 86): `f"{i}\n{start} --> {end}\n{text}\n\n"` with
`text` stripped. -/
def srtEntry (i : Nat) (seg : Segment) : String :=
  toString i ++ "\n" ++ format_timestamp seg.start ++ " --> " ++ format_timestamp seg.stop
    ++ "\n" ++ pyStrip seg.text ++ "\n\n"

/-- The loop of `generate_srt`: `for i, segment in enumerate(segments, start=1)`
appending each entry to the file. -/
def generate_srt_from (i : Nat) : List Segment → String
  | [] => ""
  | seg :: rest => srtEntry i seg ++ generate_srt_from (i + 1) rest

/-- Embeds `generate_srt` (src/backend/main.py lines 69-86): the content
written to `srt_path` for the given segment list. -/
def generate_srt (segments : List Segment) : String :=
  generate_srt_from 1 segments

/-- One caption entry as the specification describes it: the index line, the
time-range line built from the segment start and end, and the trimmed caption
text, without the separating blank line. -/
def srtSpecEntry (n : Nat) (seg : Segment) : String :=
  toString n ++ "\n" ++ format_timestamp seg.start ++ " --> " ++ format_timestamp seg.stop
    ++ "\n" ++ pyStrip seg.text

/-- The caption entries of a segment list, numbered sequentially starting
from `n`, in segment order. -/
def srtNumbered (n : Nat) : List Segment → List String
  | [] => []
  | seg :: rest => srtSpecEntry n seg :: srtNumbered (n + 1) rest

/-- Join a list of strings placing `sep` between consecutive elements. -/
def joinSep (sep : String) : List String → String
  | [] => ""
  | [a] => a
  | a :: b :: rest => a ++ sep ++ joinSep sep (b :: rest)

/-- Embeds the audio-duration policy of the remux step of `video_translate`
(src/backend/main.py lines 362-368): the duration of the replacement audio
actually muxed over a video of duration `clipDuration` when the TTS audio has
duration `newAudioDuration`.  `new_audio.subclip(0, clip.duration)` yields a
clip of exactly the video duration; the `elif` branch is `pass`, leaving
shorter audio unchanged. -/
def remux_audio_duration (clipDuration newAudioDuration : ℚ) : ℚ :=
  if newAudioDuration > clipDuration then clipDuration
  else newAudioDuration

/-- Python `len(s.split())`: the number of maximal nonempty runs of
non-whitespace characters.  The flag records whether the previous character
was inside a word. -/
def pyWordCountAux : Bool → List Char → Nat
  | _, [] => 0
  | inWord, c :: cs =>
    if c.isWhitespace then pyWordCountAux false cs
    else (if inWord then 0 else 1) + pyWordCountAux true cs

/-- Number of words `processed_text.split()` produces in Python. -/
def pyWordCount (s : String) : Nat :=
  pyWordCountAux false s.data

/-- The JSON payload of a successful `/summarize/` response
(src/backend/main.py lines 181-188). -/
structure SummarizeResponse where
  original_text : String
  processed_for_summarization : String
  summary : String
  summarized_in_english : String
  input_language : String
  output_language : String
deriving DecidableEq

/-- The condition of line 175 deciding whether the English summary is
translated into the output language: `output_lang != "en" and
output_lang != input_lang`. -/
def translateSummaryCond (input_lang output_lang : String) : Bool :=
  output_lang != "en" && output_lang != input_lang

/-- Embeds `summarize_text` (src/backend/main.py lines 119-195) with the
translator and summarizer models injected as functions.  Results are the
HTTP outcome: `.error (status, detail)` for an `HTTPException`, `.ok` for the
JSON payload.  The length check of line 135 runs before the `try` block, so
its 400 reaches the client unchanged; the word-count check of line 161 raises
its `HTTPException(400, d)` inside the `try` block, where the blanket
`except Exception` of line 190 catches it and re-raises
`HTTPException(500, f"Summarization failed: {str(e)}")`, and `str` of an
`HTTPException` is `f"{status_code}: {detail}"`, producing the 500 detail
modelled below. -/
def summarize_text (translate : String → String → String)
    (summarizer : String → String)
    (text input_lang output_lang : String) : Except (Nat × String) SummarizeResponse :=
  if pyStrip text = "" then
    Except.error (400, "Text to summarize cannot be empty.")
  else if text.length < 100 then
    Except.error (400, "Input text is too short for meaningful summarization. Please provide at least 100 characters.")
  else
    let processed_text := if input_lang != "en" then translate text "en" else text
    let input_length_words := pyWordCount processed_text
    if input_length_words < 20 then
      Except.error (500, "Summarization failed: 400: Translated text is too short for meaningful summarization. Please provide more input.")
    else
      let english_summary := summarizer ("Summarize: " ++ processed_text)
      let final_summary :=
        if translateSummaryCond input_lang output_lang then
          translate english_summary output_lang
        else english_summary
      Except.ok ⟨text, processed_text, final_summary, english_summary, input_lang, output_lang⟩

/-- The data produced by a successful `/generate_subtitles/` run: the fields
of the JSON response (lines 298-303) together with the content written to the
SRT file. -/
structure SubtitlesData where
  transcription : String
  subtitles : String
  srtContent : String
  subtitle_file_url : String
deriving DecidableEq

/-- Embeds the data flow of the success path of `generate_subtitles`
(src/backend/main.py lines 274-303) with the transcriber (returning the full
text and the segments) and the translator injected as functions. -/
def generate_subtitles_response (transcriber : String → String × List Segment)
    (translate : String → String → String)
    (audio_path lang srt_filename : String) : SubtitlesData :=
  let result := transcriber audio_path
  let transcribed_text := result.1
  let segments := result.2
  let srtContent := generate_srt segments
  let final_subtitles_text :=
    if lang != "en" then translate transcribed_text lang else transcribed_text
  ⟨transcribed_text, final_subtitles_text, srtContent, "/uploads/" ++ srt_filename⟩

/-- The resources an endpoint run can hold: temporary files in `uploads/` and
open media handles. -/
inductive Res where
  | uploadFile
  | videoFile
  | audioFile
  | ttsFile
  | srtFile
  | outputFile
  | clipHandle
  | newAudioHandle
  | finalClipHandle
deriving DecidableEq

/-- Observable actions of a run: acquiring a resource (creating a file,
opening a handle), releasing it (`os.remove`, `close`), and starting a
pipeline stage. -/
inductive Event where
  | acquire (r : Res)
  | release (r : Res)
  | exec (stage : String)
deriving DecidableEq

/-- Terminal outcome of an endpoint invocation: a 200 JSON response, an
`HTTPException` (status and detail), or an exception escaping the handler
(raised from the `finally` block), which the framework reports as a bare
internal server error with no endpoint detail. -/
inductive RunResult where
  | success (message : String)
  | httpError (status : Nat) (detail : String)
  | crash (message : String)
deriving DecidableEq

/-- Failure scenario for `/upload_audio/`: each failable operation either
succeeds (`none`) or raises with a message. -/
structure UploadAudioScenario where
  save : Option String
  transcribe : Option String
  translate : Option String
deriving DecidableEq

/-- Failure scenario for `/generate_subtitles/`. -/
structure SubtitlesScenario where
  save : Option String
  openClip : Option String
  writeAudio : Option String
  transcribe : Option String
  translate : Option String
deriving DecidableEq

/-- Failure scenario for `/video_translate/`. -/
structure VideoTranslateScenario where
  save : Option String
  openClip : Option String
  writeAudio : Option String
  transcribe : Option String
  translate : Option String
  tts : Option String
  openNewAudio : Option String
  writeVideo : Option String
deriving DecidableEq

/-- State threaded through the body of a run: the event trace, which files
currently exist on disk, and whether the `clip` variable is set (is not
`None`), which is what the `finally` blocks test. -/
structure RunState where
  events : List Event
  uploadExists : Bool
  videoExists : Bool
  audioExists : Bool
  ttsExists : Bool
  clipOpen : Bool
deriving DecidableEq

/-- Initial run state: no events, no files, no open clip. -/
def initState : RunState :=
  ⟨[], false, false, false, false, false⟩

/-- Append events to the trace of a run state. -/
def addEvents (s : RunState) (es : List Event) : RunState :=
  { s with events := s.events ++ es }

/-- Python `finally`-block semantics for a sequence of release actions: the
statements run in order; releasing `r` raises when `releaseError r` is some
message, in which case the remaining statements are skipped and the new
exception replaces the pending outcome, escaping the handler. -/
def runTeardown (releaseError : Res → Option String) (pending : RunResult) :
    List Res → List Event → RunResult × List Event
  | [], evs => (pending, evs)
  | r :: rest, evs =>
    match releaseError r with
    | some m => (RunResult.crash m, evs)
    | none => runTeardown releaseError pending rest (evs ++ [Event.release r])

/-- The trailing text of the error details of the two video endpoints. -/
def ffmpegSuffix : String :=
  ". Ensure FFmpeg is installed and in your system\x27s PATH."

/-- Embeds `upload_audio_file` (src/backend/main.py lines 197-244).  The
`try` body saves the upload (the `open` creates the file even when the
copy then fails), transcribes it, writes the SRT file (kept for download) and
translates; any failure is caught at line 238 and mapped to a 500; the
`finally` block removes the uploaded file when it exists. -/
def upload_audio_run (sc : UploadAudioScenario)
    (releaseError : Res → Option String) : RunResult × List Event :=
  let s := { addEvents initState [Event.exec "save", Event.acquire Res.uploadFile] with
             uploadExists := true }
  let step : RunState × Option String :=
    match sc.save with
    | some m => (s, some m)
    | none =>
      let s := addEvents s [Event.exec "transcribe"]
      match sc.transcribe with
      | some m => (s, some m)
      | none =>
        let s := addEvents s [Event.acquire Res.srtFile]
        let s := addEvents s [Event.exec "translate"]
        match sc.translate with
        | some m => (s, some m)
        | none => (s, none)
  let s := step.1
  let pending :=
    match step.2 with
    | none => RunResult.success "Audio upload and processing successful!"
    | some m => RunResult.httpError 500 ("Audio processing failed: " ++ m)
  runTeardown releaseError pending
    (if s.uploadExists then [Res.uploadFile] else []) s.events

/-- Embeds `generate_subtitles` (src/backend/main.py lines 246-316).  The
`try` body saves the video, opens the clip, writes the audio file, closes the
clip inline (line 276), transcribes, writes the SRT file (kept for download)
and, when `lang != "en"`, translates; any failure is caught at line 305 and
mapped to a 500; the `finally` block closes the clip again whenever the
`clip` variable is set, then removes the video and audio files when they
exist. -/
def generate_subtitles_run (sc : SubtitlesScenario) (lang : String)
    (releaseError : Res → Option String) : RunResult × List Event :=
  let s := { addEvents initState [Event.exec "save", Event.acquire Res.videoFile] with
             videoExists := true }
  let step : RunState × Option String :=
    match sc.save with
    | some m => (s, some m)
    | none =>
      let s := addEvents s [Event.exec "extract"]
      match sc.openClip with
      | some m => (s, some m)
      | none =>
        let s := { addEvents s [Event.acquire Res.clipHandle] with clipOpen := true }
        match sc.writeAudio with
        | some m => (s, some m)
        | none =>
          let s := { addEvents s [Event.acquire Res.audioFile] with audioExists := true }
          let s := addEvents s [Event.release Res.clipHandle]
          let s := addEvents s [Event.exec "transcribe"]
          match sc.transcribe with
          | some m => (s, some m)
          | none =>
            let s := addEvents s [Event.acquire Res.srtFile]
            if lang != "en" then
              let s := addEvents s [Event.exec "translate"]
              match sc.translate with
              | some m => (s, some m)
              | none => (s, none)
            else (s, none)
  let s := step.1
  let pending :=
    match step.2 with
    | none => RunResult.success "Subtitles generated successfully!"
    | some m =>
      RunResult.httpError 500 ("Video subtitle generation failed: " ++ m ++ ffmpegSuffix)
  runTeardown releaseError pending
    ((if s.clipOpen then [Res.clipHandle] else [])
      ++ (if s.videoExists then [Res.videoFile] else [])
      ++ (if s.audioExists then [Res.audioFile] else [])) s.events

/-- Embeds `video_translate` (src/backend/main.py lines 318-393).  The `try`
body saves the video, opens the clip, writes the audio file (no inline close
here), transcribes, translates, synthesizes the TTS file, opens the TTS audio
clip, builds the final clip, writes the output video and closes the final and
TTS clips; any failure is caught at line 381 and mapped to a 500; the
`finally` block closes the clip whenever the `clip` variable is set, then
removes the video, audio and TTS files when they exist. -/
def video_translate_run (sc : VideoTranslateScenario)
    (releaseError : Res → Option String) : RunResult × List Event :=
  let s := { addEvents initState [Event.exec "save", Event.acquire Res.videoFile] with
             videoExists := true }
  let step : RunState × Option String :=
    match sc.save with
    | some m => (s, some m)
    | none =>
      let s := addEvents s [Event.exec "extract"]
      match sc.openClip with
      | some m => (s, some m)
      | none =>
        let s := { addEvents s [Event.acquire Res.clipHandle] with clipOpen := true }
        match sc.writeAudio with
        | some m => (s, some m)
        | none =>
          let s := { addEvents s [Event.acquire Res.audioFile] with audioExists := true }
          let s := addEvents s [Event.exec "transcribe"]
          match sc.transcribe with
          | some m => (s, some m)
          | none =>
            let s := addEvents s [Event.exec "translate"]
            match sc.translate with
            | some m => (s, some m)
            | none =>
              let s := addEvents s [Event.exec "synthesize"]
              match sc.tts with
              | some m => (s, some m)
              | none =>
                let s := { addEvents s [Event.acquire Res.ttsFile] with ttsExists := true }
                let s := addEvents s [Event.exec "remux"]
                match sc.openNewAudio with
                | some m => (s, some m)
                | none =>
                  let s := addEvents s [Event.acquire Res.newAudioHandle]
                  let s := addEvents s [Event.acquire Res.finalClipHandle]
                  match sc.writeVideo with
                  | some m => (s, some m)
                  | none =>
                    let s := addEvents s [Event.acquire Res.outputFile]
                    let s := addEvents s
                      [Event.release Res.finalClipHandle, Event.release Res.newAudioHandle]
                    (s, none)
  let s := step.1
  let pending :=
    match step.2 with
    | none => RunResult.success "Translated video created!"
    | some m => RunResult.httpError 500 ("Video translation failed: " ++ m ++ ffmpegSuffix)
  runTeardown releaseError pending
    ((if s.clipOpen then [Res.clipHandle] else [])
      ++ (if s.videoExists then [Res.videoFile] else [])
      ++ (if s.audioExists then [Res.audioFile] else [])
      ++ (if s.ttsExists then [Res.ttsFile] else [])) s.events

/-- Number of times the trace acquires a resource. -/
def countAcquire (evs : List Event) (r : Res) : Nat :=
  evs.count (Event.acquire r)

/-- Number of times the trace releases a resource. -/
def countRelease (evs : List Event) (r : Res) : Nat :=
  evs.count (Event.release r)

/-- Number of times the trace starts the named stage. -/
def countExec (evs : List Event) (stage : String) : Nat :=
  evs.count (Event.exec stage)

/-- The pipeline stages of `video_translate`, in execution order. -/
def vtStages : List String :=
  ["save", "extract", "transcribe", "translate", "synthesize", "remux"]

/-- The pipeline stages of `generate_subtitles`, in execution order. -/
def gsStages : List String :=
  ["save", "extract", "transcribe", "translate"]

/-- The stages strictly after `k` in the given stage order. -/
def stagesAfter (stages : List String) (k : String) : List String :=
  (stages.dropWhile (fun j => j != k)).drop 1

/-- No stage strictly after `k` is started in the trace. -/
def noExecAfter (stages : List String) (k : String) (evs : List Event) : Bool :=
  (stagesAfter stages k).all (fun j => countExec evs j == 0)

/-- The first stage of `video_translate` that fails under the scenario,
with its message. -/
def vtFailStage (sc : VideoTranslateScenario) : Option (String × String) :=
  match sc.save with
  | some m => some ("save", m)
  | none =>
    match sc.openClip with
    | some m => some ("extract", m)
    | none =>
      match sc.writeAudio with
      | some m => some ("extract", m)
      | none =>
        match sc.transcribe with
        | some m => some ("transcribe", m)
        | none =>
          match sc.translate with
          | some m => some ("translate", m)
          | none =>
            match sc.tts with
            | some m => some ("synthesize", m)
            | none =>
              match sc.openNewAudio with
              | some m => some ("remux", m)
              | none =>
                match sc.writeVideo with
                | some m => some ("remux", m)
                | none => none

/-- The first stage of `generate_subtitles` that fails under the scenario;
the translate stage only runs when `lang != "en"`. -/
def gsFailStage (sc : SubtitlesScenario) (lang : String) : Option (String × String) :=
  match sc.save with
  | some m => some ("save", m)
  | none =>
    match sc.openClip with
    | some m => some ("extract", m)
    | none =>
      match sc.writeAudio with
      | some m => some ("extract", m)
      | none =>
        match sc.transcribe with
        | some m => some ("transcribe", m)
        | none =>
          if lang != "en" then
            match sc.translate with
            | some m => some ("translate", m)
            | none => none
          else none

/-- Whether the body of `generate_subtitles` reaches the inline
`clip.close()` of line 276. -/
def gsReachedInlineClose (sc : SubtitlesScenario) : Bool :=
  sc.save.isNone && sc.openClip.isNone && sc.writeAudio.isNone

/-- All release actions succeed. -/
def noReleaseError : Res → Option String := fun _ => none

/-- Scenario in which every operation succeeds. -/
def gsAllOk : SubtitlesScenario := ⟨none, none, none, none, none⟩

/-- Scenario in which the transcription stage of `generate_subtitles`
fails. -/
def gsTranscribeFails : SubtitlesScenario :=
  ⟨none, none, none, some "whisper crashed", none⟩

/-- Release model in which closing the video clip raises. -/
def clipCloseFails : Res → Option String :=
  fun r => if r = Res.clipHandle then some "close failed" else none

/-- `video_translate` scenario failing at transcription with message
"boom". -/
def vtTranscribeFails : VideoTranslateScenario :=
  ⟨none, none, none, some "boom", none, none, none, none⟩

/-- `video_translate` scenario failing at translation with the same message
"boom". -/
def vtTranslateFails : VideoTranslateScenario :=
  ⟨none, none, none, none, some "boom", none, none, none⟩

/-- Two sample transcription segments with concrete rational times. -/
def sampleSegments : List Segment :=
  [⟨0, mkRat 5 2, "  hello  "⟩, ⟨mkRat 5 2, mkRat 3661234 1000, "world"⟩]

/-- A 105-character, 20-word input for the summarize endpoint. -/
def sampleLongText : String :=
  "alpha beta gamma delta epsilon zeta eta theta iota kappa lambda mu nu xi omicron pi rho sigma tau upsilon"

/-- A 100-character input that is a single word. -/
def shortWordsText : String :=
  String.mk (List.replicate 100 'a')

/-- A translator stub that tags its input with the target language. -/
def tagTranslate : String → String → String :=
  fun s l => "<" ++ l ++ ">" ++ s

/-- A summarizer stub that wraps its input. -/
def tagSummarize : String → String :=
  fun s => "sum(" ++ s ++ ")"

/-- The response `summarize_text` produces for `sampleLongText` with the stub
models, English input and French output. -/
def sampleSummarizeResponse : SummarizeResponse :=
  ⟨sampleLongText, sampleLongText,
    tagTranslate (tagSummarize ("Summarize: " ++ sampleLongText)) "fr",
    tagSummarize ("Summarize: " ++ sampleLongText), "en", "fr"⟩

/-- Decidable form of the per-segment conditions: non-negative start and
end not before start. -/
def segsWellFormed (segs : List Segment) : Bool :=
  segs.all fun s => decide (0 ≤ s.start) && decide (s.start ≤ s.stop)

section Theorems

attribute [local semireducible] Rat.mul

/-- Each entry written by the serializer is the claim-shaped entry followed by
the blank-line separator. -/
theorem srtEntry_eq_spec (i : Nat) (seg : Segment) :
    srtEntry i seg = srtSpecEntry i seg ++ "\n\n" := rfl

/-- The serializer loop started at any index equals the sequentially numbered
entries joined by blank lines, with the trailing separator the source always
writes. -/
theorem generate_srt_from_eq (segs : List Segment) : ∀ i : Nat,
    generate_srt_from i segs =
      if segs.isEmpty then "" else joinSep "\n\n" (srtNumbered i segs) ++ "\n\n" := by
  induction segs with
  | nil => intro i; rfl
  | cons seg rest ih =>
    intro i
    cases rest with
    | nil =>
      simp only [generate_srt_from, srtNumbered, joinSep, List.isEmpty_cons,
        Bool.false_eq_true, if_false, srtEntry_eq_spec, String.append_empty]
    | cons b bs =>
      have hres := ih (i + 1)
      simp only [List.isEmpty_cons, Bool.false_eq_true, if_false] at hres
      show srtEntry i seg ++ generate_srt_from (i + 1) (b :: bs)
          = joinSep "\n\n" (srtSpecEntry i seg :: srtNumbered (i + 1) (b :: bs)) ++ "\n\n"
      rw [hres, srtEntry_eq_spec, ← String.append_assoc]
      rfl

/-- Claim C4: in the remux step of the video-translate pipeline, replacement
audio longer than the video is truncated to exactly the video duration (in
particular 12s of TTS audio over a 10s video yields a 10s audio track), and
replacement audio shorter than the video is left as-is, with no looping and
no silence padding. -/
theorem claim4_remux_truncation (clipDuration newAudioDuration : ℚ) :
    (newAudioDuration > clipDuration →
      remux_audio_duration clipDuration newAudioDuration = clipDuration)
  ∧ (newAudioDuration < clipDuration →
      remux_audio_duration clipDuration newAudioDuration = newAudioDuration) := by
  constructor
  · intro h
    simp [remux_audio_duration, h]
  · intro h
    simp [remux_audio_duration, not_lt_of_gt h]

/-- Witness for claim C4 at the concrete durations of the specification
scenario (12s TTS over a 10s video) and at a shorter replacement track. -/
theorem claim4_witness :
    ((12 : ℚ) > 10 ∧ remux_audio_duration 10 12 = 10)
  ∧ ((8 : ℚ) < 10 ∧ remux_audio_duration 10 8 = 8) :=
  ⟨⟨by decide, (claim4_remux_truncation 10 12).1 (by decide)⟩,
   ⟨by decide, (claim4_remux_truncation 10 8).2 (by decide)⟩⟩

/-- Claim C5: the subtitle timestamp formatter renders 3661.234 seconds as
"01:01:01,234".  The rational model agrees with the source's floating-point
computation here, since the IEEE double product 3661.234 * 1000 is exactly
3661234.0, so int() yields 3661234 in both semantics. -/
theorem claim5_timestamp : format_timestamp (3661.234 : ℚ) = "01:01:01,234" := by
  have h : (3661.234 : ℚ) = mkRat 3661234 1000 := by
    rw [Rat.mkRat_eq_div]; norm_num
  rw [h]
  decide

/-- Claim C6: for every list of segments with non-negative start and end not
before start, the serializer output consists of one entry per segment in
order, numbered sequentially from 1, each entry holding the index line, the
time-range line built from the segment start and end, and the trimmed text,
with consecutive entries separated by a blank line (and the trailing
separator the loop always appends). -/
theorem claim6_srt_structure (segs : List Segment)
    (_h : segsWellFormed segs = true) :
    generate_srt segs =
      if segs.isEmpty then "" else joinSep "\n\n" (srtNumbered 1 segs) ++ "\n\n" :=
  generate_srt_from_eq segs 1

/-- Witness for claim C6 on two concrete segments. -/
theorem claim6_witness :
    segsWellFormed sampleSegments = true
  ∧ generate_srt sampleSegments =
      (if sampleSegments.isEmpty then ""
       else joinSep "\n\n" (srtNumbered 1 sampleSegments) ++ "\n\n") :=
  ⟨by decide, claim6_srt_structure sampleSegments (by decide)⟩

/-- Claim C7: subtitle serialization is deterministic and idempotent — the
output is a function of the segment list alone, so serializing the same
ordered list twice yields byte-identical output. -/
theorem claim7_deterministic (segs1 segs2 : List Segment) (h : segs1 = segs2) :
    generate_srt segs1 = generate_srt segs2 := by
  rw [h]

/-- Witness for claim C7 on the concrete sample segments. -/
theorem claim7_witness :
    sampleSegments = sampleSegments
  ∧ generate_srt sampleSegments = generate_srt sampleSegments :=
  ⟨rfl, claim7_deterministic sampleSegments sampleSegments rfl⟩

/-- Claim C8: in the summarize operation, whether the English summary is
translated is decided by the pure condition on (input_lang, output_lang) of
line 175 — translation happens iff output_lang differs from "en" and from
input_lang — and in every successful response the summary field is the
translated English summary exactly when that condition holds, and the
unchanged English summary otherwise. -/
theorem claim8_summary_translation (translate : String → String → String)
    (summarizer : String → String) (text input_lang output_lang : String)
    (r : SummarizeResponse)
    (h : summarize_text translate summarizer text input_lang output_lang = Except.ok r) :
    (translateSummaryCond input_lang output_lang = true ↔
      (output_lang ≠ "en" ∧ output_lang ≠ input_lang))
  ∧ r.summary =
      (if translateSummaryCond input_lang output_lang then
        translate r.summarized_in_english output_lang
      else r.summarized_in_english) := by
  constructor
  · simp [translateSummaryCond, bne_iff_ne, and_comm]
  · simp only [summarize_text] at h
    split at h
    · exact Except.noConfusion h
    split at h
    · exact Except.noConfusion h
    split at h <;> split at h <;>
      first
      | exact Except.noConfusion h
      | (injection h with h'
         subst h'
         rfl)

/-- Witness for claim C8 with the stub models, English input and French
output. -/
theorem claim8_witness :
    (translateSummaryCond "en" "fr" = true ↔
      (("fr" : String) ≠ "en" ∧ ("fr" : String) ≠ "en"))
  ∧ sampleSummarizeResponse.summary =
      (if translateSummaryCond "en" "fr" then
        tagTranslate sampleSummarizeResponse.summarized_in_english "fr"
      else sampleSummarizeResponse.summarized_in_english) :=
  claim8_summary_translation tagTranslate tagSummarize sampleLongText "en" "fr"
    sampleSummarizeResponse (by rfl)

/-- Claim C9 evaluation: an input below 100 characters is rejected with a
400 before the model runs, but a 100-character single-word input trips the
word-count check of line 161, whose HTTPException(400) is caught by the
blanket except of line 190 and re-raised as a 500 — the client receives a
500, not the intended 400, and no summary is produced. -/
theorem claim9_short_input :
    summarize_text tagTranslate tagSummarize "too short" "en" "en"
        = Except.error (400, "Input text is too short for meaningful summarization. Please provide at least 100 characters.")
  ∧ summarize_text tagTranslate tagSummarize shortWordsText "en" "en"
      = Except.error (500, "Summarization failed: 400: Translated text is too short for meaningful summarization. Please provide more input.") :=
  ⟨by rfl, by rfl⟩

/-- Claim C10: the SRT content of a generate-subtitles run is always the
serialization of the original (untranslated) transcription segments — it does
not depend on the requested language — the transcription field keeps the
original text, and the subtitles field is the translated text exactly when
the language is not "en". -/
theorem claim10_srt_untranslated (transcriber : String → String × List Segment)
    (translate : String → String → String)
    (audio_path lang lang2 srt_filename : String) :
    (generate_subtitles_response transcriber translate audio_path lang srt_filename).srtContent
        = generate_srt (transcriber audio_path).2
  ∧ (generate_subtitles_response transcriber translate audio_path lang srt_filename).srtContent
      = (generate_subtitles_response transcriber translate audio_path lang2 srt_filename).srtContent
  ∧ (generate_subtitles_response transcriber translate audio_path lang srt_filename).transcription
      = (transcriber audio_path).1
  ∧ (generate_subtitles_response transcriber translate audio_path lang srt_filename).subtitles
      = (if lang != "en" then translate (transcriber audio_path).1 lang
         else (transcriber audio_path).1) :=
  ⟨rfl, rfl, rfl, rfl⟩

/-- In every `upload_audio_file` run with successful releases, the uploaded
file is removed exactly as many times as it is created. -/
theorem upload_counts (sc : UploadAudioScenario) :
    countRelease (upload_audio_run sc noReleaseError).2 Res.uploadFile
      = countAcquire (upload_audio_run sc noReleaseError).2 Res.uploadFile := by
  rcases sc with ⟨f1, f2, f3⟩
  cases f1 <;> cases f2 <;> cases f3 <;> rfl

/-- In every `generate_subtitles` run with successful releases, the video and
audio files are each removed exactly once when created, while the clip handle
receives one extra close whenever the body reaches the inline close of line
276 (the `finally` block closes it again). -/
theorem gs_counts (sc : SubtitlesScenario) (lang : String) :
    countRelease (generate_subtitles_run sc lang noReleaseError).2 Res.videoFile
      = countAcquire (generate_subtitles_run sc lang noReleaseError).2 Res.videoFile
  ∧ countRelease (generate_subtitles_run sc lang noReleaseError).2 Res.audioFile
      = countAcquire (generate_subtitles_run sc lang noReleaseError).2 Res.audioFile
  ∧ countRelease (generate_subtitles_run sc lang noReleaseError).2 Res.clipHandle
      = countAcquire (generate_subtitles_run sc lang noReleaseError).2 Res.clipHandle
        + (if gsReachedInlineClose sc then 1 else 0) := by
  rcases sc with ⟨f1, f2, f3, f4, f5⟩
  cases f1 with
  | some m => exact ⟨rfl, rfl, rfl⟩
  | none =>
  cases f2 with
  | some m => exact ⟨rfl, rfl, rfl⟩
  | none =>
  cases f3 with
  | some m => exact ⟨rfl, rfl, rfl⟩
  | none =>
  cases f4 with
  | some m => exact ⟨rfl, rfl, rfl⟩
  | none =>
  cases hl : lang != "en" with
  | false => cases f5 <;> simp only [generate_subtitles_run, hl] <;> exact ⟨rfl, rfl, rfl⟩
  | true => cases f5 <;> simp only [generate_subtitles_run, hl] <;> exact ⟨rfl, rfl, rfl⟩

/-- In every `video_translate` run with successful releases, the video, audio
and TTS files are each removed exactly once when created and the clip handle
is closed exactly once when opened. -/
theorem vt_counts (sc : VideoTranslateScenario) :
    countRelease (video_translate_run sc noReleaseError).2 Res.videoFile
      = countAcquire (video_translate_run sc noReleaseError).2 Res.videoFile
  ∧ countRelease (video_translate_run sc noReleaseError).2 Res.audioFile
      = countAcquire (video_translate_run sc noReleaseError).2 Res.audioFile
  ∧ countRelease (video_translate_run sc noReleaseError).2 Res.ttsFile
      = countAcquire (video_translate_run sc noReleaseError).2 Res.ttsFile
  ∧ countRelease (video_translate_run sc noReleaseError).2 Res.clipHandle
      = countAcquire (video_translate_run sc noReleaseError).2 Res.clipHandle := by
  rcases sc with ⟨f1, f2, f3, f4, f5, f6, f7, f8⟩
  cases f1 with
  | some m => exact ⟨rfl, rfl, rfl, rfl⟩
  | none =>
  cases f2 with
  | some m => exact ⟨rfl, rfl, rfl, rfl⟩
  | none =>
  cases f3 with
  | some m => exact ⟨rfl, rfl, rfl, rfl⟩
  | none =>
  cases f4 with
  | some m => exact ⟨rfl, rfl, rfl, rfl⟩
  | none =>
  cases f5 with
  | some m => exact ⟨rfl, rfl, rfl, rfl⟩
  | none =>
  cases f6 with
  | some m => exact ⟨rfl, rfl, rfl, rfl⟩
  | none =>
  cases f7 with
  | some m => exact ⟨rfl, rfl, rfl, rfl⟩
  | none =>
  cases f8 with
  | some m => exact ⟨rfl, rfl, rfl, rfl⟩
  | none => exact ⟨rfl, rfl, rfl, rfl⟩

/-- In every `video_translate` run whose first failure is at stage `k`, the
result is the 500 carrying the stage message, and no stage after `k` is
started. -/
theorem vt_halt (sc : VideoTranslateScenario) (k m : String)
    (hfail : vtFailStage sc = some (k, m)) :
    (video_translate_run sc noReleaseError).1
        = RunResult.httpError 500 ("Video translation failed: " ++ m ++ ffmpegSuffix)
  ∧ noExecAfter vtStages k (video_translate_run sc noReleaseError).2 = true := by
  rcases sc with ⟨f1, f2, f3, f4, f5, f6, f7, f8⟩
  cases f1 with
  | some m1 =>
    simp only [vtFailStage, Option.some.injEq, Prod.mk.injEq] at hfail
    obtain ⟨hk, hm⟩ := hfail
    subst hk; subst hm
    exact ⟨rfl, rfl⟩
  | none =>
  cases f2 with
  | some m1 =>
    simp only [vtFailStage, Option.some.injEq, Prod.mk.injEq] at hfail
    obtain ⟨hk, hm⟩ := hfail
    subst hk; subst hm
    exact ⟨rfl, rfl⟩
  | none =>
  cases f3 with
  | some m1 =>
    simp only [vtFailStage, Option.some.injEq, Prod.mk.injEq] at hfail
    obtain ⟨hk, hm⟩ := hfail
    subst hk; subst hm
    exact ⟨rfl, rfl⟩
  | none =>
  cases f4 with
  | some m1 =>
    simp only [vtFailStage, Option.some.injEq, Prod.mk.injEq] at hfail
    obtain ⟨hk, hm⟩ := hfail
    subst hk; subst hm
    exact ⟨rfl, rfl⟩
  | none =>
  cases f5 with
  | some m1 =>
    simp only [vtFailStage, Option.some.injEq, Prod.mk.injEq] at hfail
    obtain ⟨hk, hm⟩ := hfail
    subst hk; subst hm
    exact ⟨rfl, rfl⟩
  | none =>
  cases f6 with
  | some m1 =>
    simp only [vtFailStage, Option.some.injEq, Prod.mk.injEq] at hfail
    obtain ⟨hk, hm⟩ := hfail
    subst hk; subst hm
    exact ⟨rfl, rfl⟩
  | none =>
  cases f7 with
  | some m1 =>
    simp only [vtFailStage, Option.some.injEq, Prod.mk.injEq] at hfail
    obtain ⟨hk, hm⟩ := hfail
    subst hk; subst hm
    exact ⟨rfl, rfl⟩
  | none =>
  cases f8 with
  | some m1 =>
    simp only [vtFailStage, Option.some.injEq, Prod.mk.injEq] at hfail
    obtain ⟨hk, hm⟩ := hfail
    subst hk; subst hm
    exact ⟨rfl, rfl⟩
  | none =>
    exact Option.noConfusion hfail

/-- In every `generate_subtitles` run whose first failure is at stage `k`,
the result is the 500 carrying the stage message, and no stage after `k` is
started. -/
theorem gs_halt (sc : SubtitlesScenario) (lang k m : String)
    (hfail : gsFailStage sc lang = some (k, m)) :
    (generate_subtitles_run sc lang noReleaseError).1
        = RunResult.httpError 500 ("Video subtitle generation failed: " ++ m ++ ffmpegSuffix)
  ∧ noExecAfter gsStages k (generate_subtitles_run sc lang noReleaseError).2 = true := by
  rcases sc with ⟨f1, f2, f3, f4, f5⟩
  cases f1 with
  | some m1 =>
    simp only [gsFailStage, Option.some.injEq, Prod.mk.injEq] at hfail
    obtain ⟨hk, hm⟩ := hfail
    subst hk; subst hm
    exact ⟨rfl, rfl⟩
  | none =>
  cases f2 with
  | some m1 =>
    simp only [gsFailStage, Option.some.injEq, Prod.mk.injEq] at hfail
    obtain ⟨hk, hm⟩ := hfail
    subst hk; subst hm
    exact ⟨rfl, rfl⟩
  | none =>
  cases f3 with
  | some m1 =>
    simp only [gsFailStage, Option.some.injEq, Prod.mk.injEq] at hfail
    obtain ⟨hk, hm⟩ := hfail
    subst hk; subst hm
    exact ⟨rfl, rfl⟩
  | none =>
  cases f4 with
  | some m1 =>
    simp only [gsFailStage, Option.some.injEq, Prod.mk.injEq] at hfail
    obtain ⟨hk, hm⟩ := hfail
    subst hk; subst hm
    exact ⟨rfl, rfl⟩
  | none =>
  cases hl : lang != "en" with
  | false =>
    simp only [gsFailStage, hl, Bool.false_eq_true, if_false] at hfail
    exact Option.noConfusion hfail
  | true =>
    cases f5 with
    | some m1 =>
      simp only [gsFailStage, hl, if_true, Option.some.injEq, Prod.mk.injEq] at hfail
      obtain ⟨hk, hm⟩ := hfail
      subst hk; subst hm
      constructor
      · simp only [generate_subtitles_run, hl]
        rfl
      · simp only [noExecAfter, generate_subtitles_run, hl]
        rfl
    | none =>
      simp only [gsFailStage, hl, if_true] at hfail
      exact Option.noConfusion hfail

/-- Counterexample to claim C1 as stated: on the all-success path of
`generate_subtitles`, the video clip handle is acquired once but released
twice — once by the inline close of line 276 and once more by the `finally`
block of line 311, which re-closes it because the `clip` variable is still
set — so not every acquired resource is released exactly once. -/
theorem claim1_counterexample :
    countAcquire (generate_subtitles_run gsAllOk "en" noReleaseError).2 Res.clipHandle = 1
  ∧ countRelease (generate_subtitles_run gsAllOk "en" noReleaseError).2 Res.clipHandle = 2 := by
  decide

/-- Claim C1, amended: in every run of the three endpoints (success or any
stage failure) with successful releases, the saved upload file, the extracted
audio file and the TTS audio file are each removed exactly as many times as
they are created, and the video clip handle is closed exactly as many times
as it is opened in `upload_audio_file` and `video_translate`, while in
`generate_subtitles` it receives one additional close whenever the body
reached the inline close of line 276 (in particular on the success path). -/
theorem claim1_temp_resources (scu : UploadAudioScenario)
    (scg : SubtitlesScenario) (scv : VideoTranslateScenario) (lang : String) :
    countRelease (upload_audio_run scu noReleaseError).2 Res.uploadFile
      = countAcquire (upload_audio_run scu noReleaseError).2 Res.uploadFile
  ∧ countRelease (generate_subtitles_run scg lang noReleaseError).2 Res.videoFile
      = countAcquire (generate_subtitles_run scg lang noReleaseError).2 Res.videoFile
  ∧ countRelease (generate_subtitles_run scg lang noReleaseError).2 Res.audioFile
      = countAcquire (generate_subtitles_run scg lang noReleaseError).2 Res.audioFile
  ∧ countRelease (generate_subtitles_run scg lang noReleaseError).2 Res.clipHandle
      = countAcquire (generate_subtitles_run scg lang noReleaseError).2 Res.clipHandle
        + (if gsReachedInlineClose scg then 1 else 0)
  ∧ countRelease (video_translate_run scv noReleaseError).2 Res.videoFile
      = countAcquire (video_translate_run scv noReleaseError).2 Res.videoFile
  ∧ countRelease (video_translate_run scv noReleaseError).2 Res.audioFile
      = countAcquire (video_translate_run scv noReleaseError).2 Res.audioFile
  ∧ countRelease (video_translate_run scv noReleaseError).2 Res.ttsFile
      = countAcquire (video_translate_run scv noReleaseError).2 Res.ttsFile
  ∧ countRelease (video_translate_run scv noReleaseError).2 Res.clipHandle
      = countAcquire (video_translate_run scv noReleaseError).2 Res.clipHandle :=
  ⟨upload_counts scu, (gs_counts scg lang).1, (gs_counts scg lang).2.1,
   (gs_counts scg lang).2.2, (vt_counts scv).1, (vt_counts scv).2.1,
   (vt_counts scv).2.2.1, (vt_counts scv).2.2.2⟩

/-- Counterexample to claim C2 as stated: when transcription has failed in
`generate_subtitles` and the clip close in the `finally` block then raises,
the run terminates with the close exception — the original stage error is
replaced — and the video file, though created, is never removed: the release
failure aborts the remaining releases. -/
theorem claim2_counterexample :
    (generate_subtitles_run gsTranscribeFails "en" clipCloseFails).1
        = RunResult.crash "close failed"
  ∧ countAcquire (generate_subtitles_run gsTranscribeFails "en" clipCloseFails).2
      Res.videoFile = 1
  ∧ countRelease (generate_subtitles_run gsTranscribeFails "en" clipCloseFails).2
      Res.videoFile = 0 := by
  decide

/-- Claim C2, amended: the teardown sequence of the `finally` blocks releases
handles in order only up to the first failing release; that failure becomes
the terminal outcome of the run — replacing whatever outcome (including a
stage failure) was pending — and every release after it is skipped. -/
theorem claim2_teardown_semantics (releaseError : Res → Option String)
    (pending : RunResult) (acts : List Res) (evs : List Event) :
    (runTeardown releaseError pending acts evs).1
        = (match acts.find? (fun r => (releaseError r).isSome) with
           | none => pending
           | some r => RunResult.crash ((releaseError r).getD ""))
  ∧ (runTeardown releaseError pending acts evs).2
      = evs ++ (acts.takeWhile (fun r => (releaseError r).isNone)).map Event.release := by
  induction acts generalizing evs with
  | nil => exact ⟨rfl, by simp [runTeardown]⟩
  | cons r rest ih =>
    cases hr : releaseError r with
    | some m =>
      constructor
      · simp [runTeardown, hr, List.find?_cons]
      · simp [runTeardown, hr, List.takeWhile_cons]
    | none =>
      constructor
      · simpa [runTeardown, hr, List.find?_cons] using (ih (evs ++ [Event.release r])).1
      · have h2 := (ih (evs ++ [Event.release r])).2
        simp [runTeardown, hr, List.takeWhile_cons] at h2 ⊢
        simp [h2]

/-- Counterexample to claim C3 as stated: two `video_translate` runs failing
at different stages (transcription versus translation) with the same
underlying exception message produce identical terminal results, so the
surfaced failure does not identify the failing stage. -/
theorem claim3_counterexample :
    (video_translate_run vtTranscribeFails noReleaseError).1
        = (video_translate_run vtTranslateFails noReleaseError).1
  ∧ vtFailStage vtTranscribeFails = some ("transcribe", "boom")
  ∧ vtFailStage vtTranslateFails = some ("translate", "boom") := by
  decide

/-- Claim C3, amended: in both video endpoints, when the first failure is at
stage `k` no stage after `k` is started, and the run terminates as an HTTP
500 failure — never as a success — whose detail embeds the underlying
exception message behind a fixed endpoint-level prefix, without structurally
identifying the failing stage. -/
theorem claim3_stage_failure :
    (∀ (sc : VideoTranslateScenario) (k m : String),
      vtFailStage sc = some (k, m) →
        (video_translate_run sc noReleaseError).1
            = RunResult.httpError 500 ("Video translation failed: " ++ m ++ ffmpegSuffix)
        ∧ noExecAfter vtStages k (video_translate_run sc noReleaseError).2 = true)
  ∧ (∀ (sc : SubtitlesScenario) (lang k m : String),
      gsFailStage sc lang = some (k, m) →
        (generate_subtitles_run sc lang noReleaseError).1
            = RunResult.httpError 500
                ("Video subtitle generation failed: " ++ m ++ ffmpegSuffix)
        ∧ noExecAfter gsStages k (generate_subtitles_run sc lang noReleaseError).2 = true) :=
  ⟨vt_halt, gs_halt⟩

/-- Witness for claim C3 at concrete failing runs of both endpoints. -/
theorem claim3_witness :
    ((video_translate_run vtTranscribeFails noReleaseError).1
        = RunResult.httpError 500 ("Video translation failed: " ++ "boom" ++ ffmpegSuffix)
      ∧ noExecAfter vtStages "transcribe"
          (video_translate_run vtTranscribeFails noReleaseError).2 = true)
  ∧ ((generate_subtitles_run gsTranscribeFails "en" noReleaseError).1
        = RunResult.httpError 500
            ("Video subtitle generation failed: " ++ "whisper crashed" ++ ffmpegSuffix)
      ∧ noExecAfter gsStages "transcribe"
          (generate_subtitles_run gsTranscribeFails "en" noReleaseError).2 = true) :=
  ⟨claim3_stage_failure.1 vtTranscribeFails "transcribe" "boom" rfl,
   claim3_stage_failure.2 gsTranscribeFails "en" "transcribe" "whisper crashed" rfl⟩

end Theorems

end VocalVerse
